import Mathlib

/-!
Shallow embedding of the space-shooter game in `alio.py` and proofs about it.

Conventions of the embedding:
* pygame rectangles are modelled by their integer left/top corner plus width
  and height; `left = x`, `right = x + w`, `top = y`, `bottom = y + h`.
* Python integers are `Int` (machine overflow does not arise); the chapter
  counter, which the game only ever increments from 1, is a `Nat` so that
  Python's floor division `chapter // 2` is `Nat` division.
* Randomness (`random.randint`, `random.randrange`) is modelled by threading
  an arbitrary stream `rng : Nat -> Nat` of raw draws; each call reduces its
  draw into the requested range exactly as a uniform sampler would
  (`lo + r % (hi - lo + 1)`), so every provable fact holds for every stream.
* The high-score file is `Option String`: `none` is a missing or unreadable
  file, `some s` a readable file with content `s`.
* Wall-clock state (`pygame.time.get_ticks`, `_last_shot`, shot cooldowns) is
  outside the embedding; no claim below depends on it.
-/

namespace Alio

/-- `WIDTH` from `alio.py` line 47. -/
def WIDTH : Int := 1500

/-- `HEIGHT` from `alio.py` line 47. -/
def HEIGHT : Int := 900

/-! ### Python `int(string)` parsing

`HighScoreManager._load` calls `int(f.read())`.  Python's `int` strips ASCII
whitespace, accepts one optional sign, and then a nonempty digit string in
which single underscores may separate digits.  We model that for ASCII
content. -/

/-- ASCII whitespace accepted by Python's `int`. -/
def pyIsSpace (c : Char) : Bool :=
  c = ' ' || c = '\t' || c = '\n' || c = '\r' || c = '\x0b' || c = '\x0c'

/-- Strip leading and trailing whitespace from a character list. -/
def pyStrip (l : List Char) : List Char :=
  ((l.dropWhile pyIsSpace).reverse.dropWhile pyIsSpace).reverse

/-- Continue parsing a digit string after its first digit; a single
underscore may stand between two digits. -/
def digitsCore : List Char → Nat → Option Nat
  | [], acc => some acc
  | '_' :: c :: rest, acc =>
      if c.isDigit then digitsCore rest (acc * 10 + (c.toNat - 48)) else none
  | c :: rest, acc =>
      if c.isDigit then digitsCore rest (acc * 10 + (c.toNat - 48)) else none

/-- Parse a nonempty digit string (underscores allowed between digits). -/
def parseDigits : List Char → Option Nat
  | [] => none
  | c :: rest => if c.isDigit then digitsCore rest (c.toNat - 48) else none

/-- The value Python's `int(s)` produces, or `none` where Python raises
`ValueError`. -/
def pyIntParse (s : String) : Option Int :=
  match pyStrip s.data with
  | '-' :: rest => (parseDigits rest).map fun n => -(n : Int)
  | '+' :: rest => (parseDigits rest).map fun n => (n : Int)
  | l => (parseDigits l).map fun n => (n : Int)

/-! ### HighScoreManager (`alio.py` lines 19-43) -/

/-- State of the high-score manager: the in-memory score and the persisted
file (`none` when missing or unreadable). -/
structure HighScoreState where
  score : Int
  file : Option String
  deriving Repr, DecidableEq

namespace HighScoreManager

/-- `HighScoreManager._load` (`alio.py` lines 26-32): read and parse the
file, returning 0 on `IOError` (missing/unreadable file) or `ValueError`
(unparsable content). -/
def _load (file : Option String) : Int :=
  match file with
  | none => 0
  | some s =>
    match pyIntParse s with
    | some n => n
    | none => 0

/-- `HighScoreManager.update` (`alio.py` lines 34-39): when the new score is
strictly greater, store it and overwrite the file with its decimal text;
otherwise leave both untouched. -/
def update (st : HighScoreState) (new_score : Int) : HighScoreState :=
  if st.score < new_score then
    { score := new_score, file := some (toString new_score) }
  else st

/-- `HighScoreManager.get` (`alio.py` lines 41-43). -/
def get (st : HighScoreState) : Int := st.score

end HighScoreManager

/-! ### Player (`alio.py` lines 85-157) -/

/-- The player ship.  `x`/`y` are `rect.x`/`rect.y` of its 50x40 rectangle;
`_health` is the private attribute behind the clamping `health` property;
the five `*_time` fields are the timed-effect counters. -/
structure Player where
  x : Int
  y : Int
  speed : Int
  _health : Int
  shield : Bool
  invincible_time : Int
  triple_shot_time : Int
  big_bullet_time : Int
  speed_buff_time : Int
  multi_shot_time : Int
  deriving Repr, DecidableEq

namespace Player

/-- `Player.__init__` (`alio.py` lines 87-102): a 50x40 ship with
`midbottom = (WIDTH//2, HEIGHT-10)`, speed 6, health 5, no shield, all timers
zero. -/
def init : Player :=
  { x := WIDTH / 2 - 25
    y := HEIGHT - 10 - 40
    speed := 6
    _health := 5
    shield := false
    invincible_time := 0
    triple_shot_time := 0
    big_bullet_time := 0
    speed_buff_time := 0
    multi_shot_time := 0 }

/-- The `health` property getter (`alio.py` lines 104-107). -/
def health (p : Player) : Int := p._health

/-- The `health` property setter (`alio.py` lines 109-112): clamps to
`[0, 20]`. -/
def health_set (p : Player) (val : Int) : Player :=
  { p with _health := max 0 (min 20 val) }

/-- The movement half of `Player.update` (`alio.py` lines 119-122).  Each
guard reads the rectangle as already moved by the earlier guards of the same
call, and each move is by `self.speed` — the boosted `current_speed`
computed on lines 116-118 is never used by the movement code. -/
def move (p : Player) (kLeft kRight kUp kDown : Bool) : Player :=
  let x1 := if kLeft ∧ 0 < p.x then p.x - p.speed else p.x
  let x2 := if kRight ∧ x1 + 50 < WIDTH then x1 + p.speed else x1
  let y1 := if kUp ∧ 0 < p.y then p.y - p.speed else p.y
  let y2 := if kDown ∧ y1 + 40 < HEIGHT then y1 + p.speed else y1
  { p with x := x2, y := y2 }

/-- The `current_speed` local computed by `Player.update`
(`alio.py` lines 116-118): `speed * 1.5` while the speed buff is active.
For the game's speed of 6 the float product `6 * 1.5 = 9.0` is exact, so we
render it as `speed * 3 / 2`. -/
def current_speed (p : Player) : Int :=
  if 0 < p.speed_buff_time then p.speed * 3 / 2 else p.speed

/-- One step of the timer decay loop of `Player.update`
(`alio.py` lines 123-126): `if t: t := t - 1` (Python truthiness). -/
def tickTimer (t : Int) : Int := if t ≠ 0 then t - 1 else t

/-- `Player.update` (`alio.py` lines 114-126): move per the pressed keys,
then decrement every nonzero effect timer by one. -/
def update (p : Player) (kLeft kRight kUp kDown : Bool) : Player :=
  let q := p.move kLeft kRight kUp kDown
  { q with
    invincible_time := tickTimer q.invincible_time
    triple_shot_time := tickTimer q.triple_shot_time
    big_bullet_time := tickTimer q.big_bullet_time
    speed_buff_time := tickTimer q.speed_buff_time
    multi_shot_time := tickTimer q.multi_shot_time }

/-- `Player.take_damage` (`alio.py` lines 144-150): no-op when the
invincibility timer is truthy; else consume the shield if present; else
subtract `amount` from `_health`, floored at 0. -/
def take_damage (p : Player) (amount : Int) : Player :=
  if p.invincible_time ≠ 0 then p
  else if p.shield then { p with shield := false }
  else { p with _health := max 0 (p._health - amount) }

/-- `Player.calculate_damage` (`alio.py` lines 152-157). -/
def calculate_damage (score : Int) : Int :=
  if 1000 ≤ score then 3
  else if 500 ≤ score then 2
  else 1

end Player

/-- The operations the game performs on a `Player`: the per-frame `update`,
`take_damage`, the clamping `health` setter, and the seven power-up effects
applied by the power-up collision pass (`alio.py` lines 472-479; `heal` goes
through the `health` property, the others assign a flag or a 900-tick
timer). -/
inductive PlayerOp where
  | update (kLeft kRight kUp kDown : Bool)
  | damage (amount : Int)
  | set_health (v : Int)
  | heal
  | shield
  | big
  | speed
  | invincibility
  | triple
  | multi
  deriving Repr, DecidableEq

/-- Apply one `PlayerOp` to the player, exactly as `alio.py` does. -/
def Player.applyOp (p : Player) : PlayerOp → Player
  | .update l r u d => p.update l r u d
  | .damage a => p.take_damage a
  | .set_health v => p.health_set v
  | .heal => p.health_set (p.health + 2)
  | .shield => { p with shield := true }
  | .big => { p with big_bullet_time := 900 }
  | .speed => { p with speed_buff_time := 900 }
  | .invincibility => { p with invincible_time := 900 }
  | .triple => { p with triple_shot_time := 900 }
  | .multi => { p with multi_shot_time := 900 }

/-- The side condition the claims place on damage: `take_damage` is only
considered for non-negative amounts (the game passes 1, 2 or 3). -/
def PlayerOp.nonnegDamage : PlayerOp → Prop
  | .damage a => 0 ≤ a
  | _ => True

/-- The state invariant of claim C2: health within `[0, 20]` and no timed
effect counter negative. -/
def Player.Inv (p : Player) : Prop :=
  0 ≤ p._health ∧ p._health ≤ 20 ∧
  0 ≤ p.invincible_time ∧ 0 ≤ p.triple_shot_time ∧ 0 ≤ p.big_bullet_time ∧
  0 ≤ p.speed_buff_time ∧ 0 ≤ p.multi_shot_time

/-! ### Randomness -/

/-- `random.randint(lo, hi)` (inclusive bounds) on draw `r` of a stream. -/
def randint (lo hi : Int) (r : Nat) : Int :=
  lo + (r % (hi + 1 - lo).toNat : Nat)

/-- `random.randrange(lo, hi)` (exclusive upper bound) on draw `r`. -/
def randrange (lo hi : Int) (r : Nat) : Int :=
  lo + (r % (hi - lo).toNat : Nat)

/-! ### Bullets, enemies, asteroids, power-ups
(`alio.py` lines 159-319) -/

/-- A player bullet: 50x40-style rect fields plus per-tick speed and the
horizontal drift `dx`. -/
structure Bullet where
  x : Int
  y : Int
  w : Int
  h : Int
  speed : Int
  dx : Int
  deriving Repr, DecidableEq

/-- `Bullet.__init__` (`alio.py` lines 161-169): 12x24 and speed 12 when
big, else 5x12 and speed 15, centred at `(x, y)`. -/
def Bullet.make (x y : Int) (big : Bool) (dx : Int) : Bullet :=
  let w : Int := if big then 12 else 5
  let h : Int := if big then 24 else 12
  { x := x - w / 2, y := y - h / 2, w := w, h := h
    speed := if big then 12 else 15, dx := dx }

/-- `Bullet.update` (`alio.py` lines 171-177): move up by `speed`, drift by
`dx`, then `kill()` when fully above the screen or past either horizontal
bound.  Returns the moved bullet and whether it is still alive (in its
groups). -/
def Bullet.update (b : Bullet) : Bullet × Bool :=
  let b' := { b with y := b.y - b.speed, x := b.x + b.dx }
  (b', !(decide (b'.y + b'.h < 0) || decide (WIDTH < b'.x) || decide (b'.x + b'.w < 0)))

/-- An ordinary enemy: a 40x32 rect, speed, health and a shot delay. -/
structure Enemy where
  x : Int
  y : Int
  speed : Int
  health : Int
  shoot_delay_ms : Int
  deriving Repr, DecidableEq

/-- `Enemy.__init__` (`alio.py` lines 181-191) for given speed and health:
`midtop = (randrange(40, WIDTH-40), -40)` and a random shot delay in
`[1200, 2000]`; `rx`/`rdelay` are the two raw draws it consumes. -/
def Enemy.make (speed health : Int) (rx rdelay : Nat) : Enemy :=
  { x := randrange 40 (WIDTH - 40) rx - 20
    y := -40
    speed := speed
    health := health
    shoot_delay_ms := randint 1200 2000 rdelay }

/-- `Enemy.take_damage` (`alio.py` lines 199-203): subtract, and `kill()`
(here: `none`) when health drops to 0 or below. -/
def Enemy.take_damage (e : Enemy) (amount : Int) : Option Enemy :=
  let e' := { e with health := e.health - amount }
  if e'.health ≤ 0 then none else some e'

/-- An enemy bullet (`alio.py` lines 214-228): 5x12 rect, speed 6. -/
structure EnemyBullet where
  x : Int
  y : Int
  speed : Int
  deriving Repr, DecidableEq

/-- `EnemyBullet.__init__` (`alio.py` lines 216-222), centred at `(x,y)`. -/
def EnemyBullet.make (x y : Int) : EnemyBullet :=
  { x := x - 2, y := y - 6, speed := 6 }

/-- `EnemyBullet.update` (`alio.py` lines 224-228): move down, `kill()` when
the top passes `HEIGHT`. -/
def EnemyBullet.update (b : EnemyBullet) : EnemyBullet × Bool :=
  let b' := { b with y := b.y + b.speed }
  (b', !decide (HEIGHT < b'.y))

/-- The boss (`alio.py` lines 230-262): 120x120 rect, horizontal
oscillation, health 100. -/
structure Boss where
  x : Int
  y : Int
  speed : Int
  _dir : Int
  health : Int
  shoot_delay_ms : Int
  deriving Repr, DecidableEq

/-- `Boss.__init__` (`alio.py` lines 232-242): centred at `(WIDTH//2, 100)`,
speed 2, direction 1, health 100, shot delay 600. -/
def Boss.init : Boss :=
  { x := WIDTH / 2 - 60, y := 100 - 60, speed := 2, _dir := 1
    health := 100, shoot_delay_ms := 600 }

/-- An asteroid (`alio.py` lines 264-280): radius `r` in `[15, 30]`, a
`2r x 2r` rect, downward speed in `[2, 6]`. -/
structure Asteroid where
  x : Int
  y : Int
  r : Int
  speed : Int
  deriving Repr, DecidableEq

/-- `Asteroid.__init__` (`alio.py` lines 266-274) on raw draws
`rr`, `rx`, `rspd`. -/
def Asteroid.make (rr rx rspd : Nat) : Asteroid :=
  let r := randint 15 30 rr
  { x := randrange r (WIDTH - r) rx - r
    y := -r - r
    r := r
    speed := randint 2 6 rspd }

/-- `Asteroid.update` (`alio.py` lines 276-280): move down, `kill()` when
the top passes `HEIGHT`. -/
def Asteroid.update (a : Asteroid) : Asteroid × Bool :=
  let a' := { a with y := a.y + a.speed }
  (a', !decide (HEIGHT < a'.y))

/-- The fixed enumeration of power-up kinds (`PowerUp.COLOURS`). -/
inductive PowerKind where
  | triple | heal | shield | big | speed | invincibility | multi
  deriving Repr, DecidableEq

/-- A power-up (`alio.py` lines 282-303): a 24x24 rect (radius 12),
downward speed 3. -/
structure PowerUp where
  kind : PowerKind
  x : Int
  y : Int
  speed : Int
  deriving Repr, DecidableEq

/-- `PowerUp.__init__` (`alio.py` lines 289-297) on raw draw `rx`. -/
def PowerUp.make (kind : PowerKind) (rx : Nat) : PowerUp :=
  { kind := kind, x := randrange 12 (WIDTH - 12) rx - 12, y := -24, speed := 3 }

/-- `PowerUp.update` (`alio.py` lines 299-303): move down, `kill()` when the
top passes `HEIGHT`. -/
def PowerUp.update (u : PowerUp) : PowerUp × Bool :=
  let u' := { u with y := u.y + u.speed }
  (u', !decide (HEIGHT < u'.y))

/-! ### Wave spawning (`alio.py` lines 368-377) -/

/-- The enemies one call to `spawn_enemy_wave(chapter, ...)` creates:
`5 + chapter*2` of them, the `i`-th consuming four raw draws — speed and
health from `randint(1 + chapter//2, 3 + chapter//2)`, then the two draws of
`Enemy.__init__`. -/
def wave_enemies (chapter : Nat) (rng : Nat → Nat) : List Enemy :=
  (List.range (5 + chapter * 2)).map fun i =>
    let lo : Int := 1 + (chapter / 2 : Nat)
    let hi : Int := 3 + (chapter / 2 : Nat)
    Enemy.make (randint lo hi (rng (4 * i))) (randint lo hi (rng (4 * i + 1)))
      (rng (4 * i + 2)) (rng (4 * i + 3))

/-- `spawn_enemy_wave` (`alio.py` lines 368-377): append the new wave to the
enemy group.  (The enemies are also added to the all-sprites render group,
which carries no game state beyond membership and is not modelled.) -/
def spawn_enemy_wave (chapter : Nat) (rng : Nat → Nat)
    (enemy_group : List Enemy) : List Enemy :=
  enemy_group ++ wave_enemies chapter rng

/-! ### Wave / boss progression (`alio.py` lines 486-491) -/

/-- A member of the `enemies` sprite group: an ordinary enemy or the boss. -/
inductive Hostile where
  | enemy (e : Enemy)
  | boss (b : Boss)
  deriving Repr, DecidableEq

/-- Whether a group member is a boss. -/
def Hostile.isBoss : Hostile → Bool
  | .boss _ => true
  | .enemy _ => false

/-- The end-of-frame progression step (`alio.py` lines 486-491): when the
enemy group is empty, increment the chapter; on a multiple of 3 add exactly
one boss to the group, otherwise add an ordinary wave. -/
def wave_or_boss_step (chapter : Nat) (enemies : List Hostile)
    (rng : Nat → Nat) : Nat × List Hostile :=
  if enemies.isEmpty then
    let chapter' := chapter + 1
    if chapter' % 3 = 0 then
      (chapter', enemies ++ [Hostile.boss Boss.init])
    else
      (chapter', enemies ++ (wave_enemies chapter' rng).map Hostile.enemy)
  else (chapter, enemies)

/-! ### Collision passes (`alio.py` lines 452-465) -/

/-- pygame's `colliderect`: strict overlap of two rectangles given as
left/top/width/height. -/
def rects_intersect (ax ay aw ah bx bY bw bh : Int) : Bool :=
  decide (ax < bx + bw) && decide (ay < bY + bh) &&
  decide (bx < ax + aw) && decide (bY < ay + ah)

/-- Collision of the 50x40 player rect with a 40x32 enemy rect. -/
def playerHitsEnemy (p : Player) (e : Enemy) : Bool :=
  rects_intersect p.x p.y 50 40 e.x e.y 40 32

/-- Collision of a player bullet with a 40x32 enemy rect. -/
def bulletHitsEnemy (b : Bullet) (e : Enemy) : Bool :=
  rects_intersect b.x b.y b.w b.h e.x e.y 40 32

/-- The player-versus-enemy contact pass (`alio.py` lines 461-465):
`spritecollide` collects the overlapping enemies, the player takes one
`take_damage(1)` call when that list is nonempty, and every collected enemy
is `kill()`ed.  Returns the updated player and the surviving enemy group. -/
def player_enemy_contact (p : Player) (enemies : List Enemy) :
    Player × List Enemy :=
  let collided := enemies.filter fun e => playerHitsEnemy p e
  let p' := if collided.isEmpty then p else p.take_damage 1
  (p', enemies.filter fun e => !playerHitsEnemy p e)

/-- The bullet-versus-enemy pass for one bullet (`alio.py` lines 453-458):
every enemy overlapping the bullet takes `take_damage(2 if big else 1)` once
(removed when its health drops to 0 or below), the score grows by 10 per hit
enemy, one explosion is spawned per hit enemy, and the bullet is `kill()`ed
as soon as there is at least one hit.  Returns (surviving enemies, new
score, explosions spawned, bullet still alive). -/
def bullet_enemy_pass (p : Player) (b : Bullet) (enemies : List Enemy)
    (score : Int) : List Enemy × Int × Nat × Bool :=
  let dmg : Int := if p.big_bullet_time ≠ 0 then 2 else 1
  let hits := enemies.filter fun e => bulletHitsEnemy b e
  (enemies.filterMap fun e =>
      if bulletHitsEnemy b e then e.take_damage dmg else some e,
   score + 10 * hits.length,
   hits.length,
   hits.isEmpty)

/-! ## Theorems -/

/-- C1: for every `Player.take_damage(amount)` call with `amount ≥ 0` (on a
state with a non-negative invincibility timer), exactly one of three
outcomes happens: with the timer positive the call is a complete no-op;
with the timer zero and the shield up, the shield is consumed and health is
unchanged; with the timer zero and no shield, health decreases by `amount`,
floored at zero.  The three guards are mutually exclusive and exhaustive. -/
theorem C1_take_damage_trichotomy (p : Player) (amount : Int)
    (hinv : 0 ≤ p.invincible_time) (_ha : 0 ≤ amount) :
    (0 < p.invincible_time ∨ p.invincible_time = 0) ∧
    (0 < p.invincible_time → p.take_damage amount = p) ∧
    (p.invincible_time = 0 → p.shield = true →
      (p.take_damage amount).shield = false ∧
      (p.take_damage amount)._health = p._health) ∧
    (p.invincible_time = 0 → p.shield = false →
      (p.take_damage amount).shield = false ∧
      (p.take_damage amount)._health = max 0 (p._health - amount)) := by
  refine ⟨by omega, ?_, ?_, ?_⟩
  · intro h
    unfold Player.take_damage
    rw [if_pos (by omega)]
  · intro h hs
    unfold Player.take_damage
    rw [if_neg (by omega), if_pos hs]
    exact ⟨rfl, rfl⟩
  · intro h hs
    unfold Player.take_damage
    rw [if_neg (by omega), if_neg (by simp [hs])]
    exact ⟨hs, rfl⟩

/-- Witness for C1: a shielded player at the initial state absorbs one hit
with the shield and keeps its health. -/
theorem C1_take_damage_trichotomy_witness :
    (Player.take_damage { Player.init with shield := true } 1).shield = false ∧
    (Player.take_damage { Player.init with shield := true } 1)._health
      = ({ Player.init with shield := true } : Player)._health :=
  (C1_take_damage_trichotomy { Player.init with shield := true } 1
    (by decide) (by decide)).2.2.1 rfl rfl

/-- The timer decay step never makes a non-negative timer negative. -/
theorem tickTimer_nonneg {t : Int} (h : 0 ≤ t) : 0 ≤ Player.tickTimer t := by
  unfold Player.tickTimer
  split <;> omega

/-- Every single game operation on the player preserves the C2 invariant
(given a non-negative damage amount). -/
theorem applyOp_preserves_inv {p : Player} (op : PlayerOp) (hp : p.Inv)
    (hop : op.nonnegDamage) : (p.applyOp op).Inv := by
  obtain ⟨h1, h2, h3, h4, h5, h6, h7⟩ := hp
  cases op with
  | update l r u d =>
    exact ⟨h1, h2, tickTimer_nonneg h3, tickTimer_nonneg h4, tickTimer_nonneg h5,
      tickTimer_nonneg h6, tickTimer_nonneg h7⟩
  | damage a =>
    have ha : 0 ≤ a := hop
    show (p.take_damage a).Inv
    unfold Player.take_damage
    split
    · exact ⟨h1, h2, h3, h4, h5, h6, h7⟩
    split
    · exact ⟨h1, h2, h3, h4, h5, h6, h7⟩
    · refine ⟨?_, ?_, h3, h4, h5, h6, h7⟩
      · show (0:Int) ≤ max 0 (p._health - a)
        omega
      · show max 0 (p._health - a) ≤ 20
        omega
  | set_health v =>
    refine ⟨?_, ?_, h3, h4, h5, h6, h7⟩
    · show (0:Int) ≤ max 0 (min 20 v)
      omega
    · show max 0 (min 20 v) ≤ 20
      omega
  | heal =>
    refine ⟨?_, ?_, h3, h4, h5, h6, h7⟩
    · show (0:Int) ≤ max 0 (min 20 (p.health + 2))
      omega
    · show max 0 (min 20 (p.health + 2)) ≤ 20
      omega
  | shield => exact ⟨h1, h2, h3, h4, h5, h6, h7⟩
  | big => exact ⟨h1, h2, h3, h4, (by decide : (0:Int) ≤ 900), h6, h7⟩
  | speed => exact ⟨h1, h2, h3, h4, h5, (by decide : (0:Int) ≤ 900), h7⟩
  | invincibility => exact ⟨h1, h2, (by decide : (0:Int) ≤ 900), h4, h5, h6, h7⟩
  | triple => exact ⟨h1, h2, h3, (by decide : (0:Int) ≤ 900), h5, h6, h7⟩
  | multi => exact ⟨h1, h2, h3, h4, h5, h6, (by decide : (0:Int) ≤ 900)⟩

/-- The invariant holds along any operation sequence from any state
satisfying it. -/
theorem foldl_applyOp_inv (l : List PlayerOp) :
    ∀ p : Player, p.Inv → (∀ op ∈ l, op.nonnegDamage) →
      (l.foldl Player.applyOp p).Inv := by
  induction l with
  | nil => intro p hp _; exact hp
  | cons op l ih =>
    intro p hp hl
    simp only [List.foldl_cons]
    exact ih _ (applyOp_preserves_inv op hp (hl op (List.mem_cons_self _ _)))
      fun o ho => hl o (List.mem_cons_of_mem _ ho)

/-- C2: starting from a freshly constructed `Player`, after any sequence of
game operations (per-frame update, `take_damage` with non-negative amount,
`health` setter assignments, power-up effects) health stays within
`[0, 20]` — in particular never negative — and none of the five timed-effect
counters ever goes negative. -/
theorem C2_player_invariant (ops : List PlayerOp)
    (h : ∀ op ∈ ops, op.nonnegDamage) :
    (ops.foldl Player.applyOp Player.init).Inv :=
  foldl_applyOp_inv ops Player.init
    ⟨by decide, by decide, by decide, by decide, by decide, by decide, by decide⟩ h

/-- Witness for C2: a concrete operation sequence keeps the invariant. -/
theorem C2_player_invariant_witness :
    (([PlayerOp.invincibility, PlayerOp.damage 3, PlayerOp.heal,
        PlayerOp.update true false false true,
        PlayerOp.set_health 99].foldl Player.applyOp Player.init)).Inv :=
  C2_player_invariant _ (by
    intro op hop
    fin_cases hop <;> simp [PlayerOp.nonnegDamage])

/-- `randint lo hi r` lands in the inclusive range `[lo, hi]`. -/
theorem randint_bounds (lo hi : Int) (r : Nat) (h : lo ≤ hi) :
    lo ≤ randint lo hi r ∧ randint lo hi r ≤ hi := by
  unfold randint
  have h3 : r % (hi + 1 - lo).toNat < (hi + 1 - lo).toNat :=
    Nat.mod_lt _ (by omega)
  omega

/-- C3: for every chapter `N ≥ 1` (and every random stream),
`spawn_enemy_wave` appends exactly `5 + 2*N` ordinary enemies to the enemy
group, and each spawned enemy's speed and health lie in the inclusive
integer range `[1 + N/2, 3 + N/2]` (floor division), each drawn by its own
`randint` call. -/
theorem C3_spawn_wave_size_and_range (chapter : Nat) (rng : Nat → Nat)
    (g : List Enemy) (_hch : 1 ≤ chapter) :
    spawn_enemy_wave chapter rng g = g ++ wave_enemies chapter rng ∧
    (spawn_enemy_wave chapter rng g).length = g.length + (5 + 2 * chapter) ∧
    (wave_enemies chapter rng).length = 5 + 2 * chapter ∧
    ∀ e ∈ wave_enemies chapter rng,
      ((1 + (chapter / 2 : Nat) : Int) ≤ e.speed ∧
        e.speed ≤ (3 + (chapter / 2 : Nat) : Int)) ∧
      ((1 + (chapter / 2 : Nat) : Int) ≤ e.health ∧
        e.health ≤ (3 + (chapter / 2 : Nat) : Int)) := by
  have hlen : (wave_enemies chapter rng).length = 5 + 2 * chapter := by
    simp [wave_enemies]
    ring
  refine ⟨rfl, ?_, hlen, ?_⟩
  · simp [spawn_enemy_wave, hlen]
  · intro e he
    simp only [wave_enemies, List.mem_map, List.mem_range] at he
    obtain ⟨i, _, rfl⟩ := he
    have hle : (1 + (chapter / 2 : Nat) : Int) ≤ (3 + (chapter / 2 : Nat) : Int) := by
      omega
    have hb1 := randint_bounds _ _ (rng (4 * i)) hle
    have hb2 := randint_bounds _ _ (rng (4 * i + 1)) hle
    exact ⟨hb1, hb2⟩

/-- Witness for C3: the chapter-1 wave on the zero stream has 7 enemies. -/
theorem C3_spawn_wave_size_and_range_witness :
    (spawn_enemy_wave 1 (fun _ => 0) ([] : List Enemy)).length
      = ([] : List Enemy).length + (5 + 2 * 1) :=
  (C3_spawn_wave_size_and_range 1 (fun _ => 0) [] (by decide)).2.1

/-- No member of an enemy-only group is a boss. -/
theorem filter_isBoss_map_enemy (l : List Enemy) :
    (l.map Hostile.enemy).filter Hostile.isBoss = [] := by
  induction l with
  | nil => rfl
  | cons e l ih => simp [Hostile.isBoss, ih]

/-- Every member of an enemy-only group is an ordinary enemy. -/
theorem filter_notBoss_map_enemy (l : List Enemy) :
    ((l.map Hostile.enemy).filter fun h => !h.isBoss) = l.map Hostile.enemy := by
  induction l with
  | nil => rfl
  | cons e l ih => simp [Hostile.isBoss, ih]

/-- C4: when the enemy group becomes empty, the progression step increments
the chapter by exactly one, and then: if the new chapter is a (positive)
multiple of 3, the new enemy group holds exactly one boss and zero ordinary
enemies; otherwise it holds zero bosses and an ordinary wave of
`5 + 2*chapter` enemies. -/
theorem C4_boss_cadence (chapter : Nat) (enemies : List Hostile)
    (rng : Nat → Nat) (hempty : enemies = []) :
    (wave_or_boss_step chapter enemies rng).1 = chapter + 1 ∧
    ((chapter + 1) % 3 = 0 →
      ((wave_or_boss_step chapter enemies rng).2.filter Hostile.isBoss).length = 1 ∧
      ((wave_or_boss_step chapter enemies rng).2.filter
        fun h => !h.isBoss).length = 0) ∧
    ((chapter + 1) % 3 ≠ 0 →
      ((wave_or_boss_step chapter enemies rng).2.filter Hostile.isBoss).length = 0 ∧
      ((wave_or_boss_step chapter enemies rng).2.filter
        fun h => !h.isBoss).length = 5 + 2 * (chapter + 1)) := by
  subst hempty
  by_cases h3 : (chapter + 1) % 3 = 0
  · refine ⟨?_, fun _ => ⟨?_, ?_⟩, fun h => absurd h3 h⟩ <;>
      simp [wave_or_boss_step, h3, Hostile.isBoss]
  · have hlen : (wave_enemies (chapter + 1) rng).length = 5 + 2 * (chapter + 1) := by
      simp [wave_enemies]
      ring
    refine ⟨?_, fun h => absurd h h3, fun _ => ⟨?_, ?_⟩⟩
    · simp [wave_or_boss_step, h3]
    · simp [wave_or_boss_step, h3, filter_isBoss_map_enemy]
    · simp only [wave_or_boss_step, List.isEmpty_nil, if_true, if_neg h3,
        List.nil_append]
      rw [filter_notBoss_map_enemy]
      simpa using hlen

/-- Witness for C4: clearing the enemies in chapter 2 spawns the chapter-3
boss and no ordinary enemy. -/
theorem C4_boss_cadence_witness :
    ((wave_or_boss_step 2 [] (fun _ => 0)).2.filter Hostile.isBoss).length = 1 :=
  ((C4_boss_cadence 2 [] (fun _ => 0) rfl).2.1 (by decide)).1

/-- `HighScoreManager.update` is a no-op when the new score does not beat
the stored one. -/
theorem hs_update_of_le {st : HighScoreState} {s : Int} (h : s ≤ st.score) :
    HighScoreManager.update st s = st := by
  unfold HighScoreManager.update
  rw [if_neg (by omega)]

/-- One `update` call never lowers the stored score. -/
theorem hs_update_score_le (st : HighScoreState) (s : Int) :
    st.score ≤ (HighScoreManager.update st s).score := by
  unfold HighScoreManager.update
  split
  · next h => exact le_of_lt h
  · exact le_refl _

/-- The stored score is non-decreasing across any sequence of `update`
calls. -/
theorem hs_foldl_score_le (ss : List Int) :
    ∀ st : HighScoreState,
      st.score ≤ (ss.foldl HighScoreManager.update st).score := by
  induction ss with
  | nil => intro st; exact le_refl _
  | cons s ss ih =>
    intro st
    exact le_trans (hs_update_score_le st s) (ih _)

/-- C5: `HighScoreManager.update s` leaves both the in-memory score and the
persisted file untouched when `s` does not exceed the stored score, and
sets both to `s` (the file to its decimal text) when it does; hence the
stored score is monotonically non-decreasing over any update sequence, and
writing 150 and later 80 leaves the stored value at 150. -/
theorem C5_highscore_monotone (st : HighScoreState) (s : Int) (ss : List Int) :
    (s ≤ st.score → HighScoreManager.update st s = st) ∧
    (st.score < s →
      (HighScoreManager.update st s).score = s ∧
      (HighScoreManager.update st s).file = some (toString s)) ∧
    st.score ≤ (ss.foldl HighScoreManager.update st).score ∧
    (150 ≤ (HighScoreManager.update st 150).score ∧
      HighScoreManager.update (HighScoreManager.update st 150) 80
        = HighScoreManager.update st 150) := by
  have h150 : (150 : Int) ≤ (HighScoreManager.update st 150).score := by
    unfold HighScoreManager.update
    split
    · exact le_refl _
    · next h => exact le_of_not_lt h
  refine ⟨fun h => hs_update_of_le h, fun h => ?_, hs_foldl_score_le ss st,
    h150, hs_update_of_le (by omega)⟩
  unfold HighScoreManager.update
  rw [if_pos h]
  exact ⟨rfl, rfl⟩

/-- Witness for C5: from a fresh state, writing 150 stores score 150 with
file "150", and a later 80 changes nothing. -/
theorem C5_highscore_monotone_witness :
    (HighScoreManager.update ⟨0, none⟩ 150).score = 150 ∧
    (HighScoreManager.update ⟨0, none⟩ 150).file = some "150" ∧
    HighScoreManager.update (HighScoreManager.update ⟨0, none⟩ 150) 80
      = HighScoreManager.update ⟨0, none⟩ 150 := by
  have h := C5_highscore_monotone ⟨0, none⟩ 150 []
  have h2 := h.2.1 (by decide)
  exact ⟨h2.1, by rw [h2.2]; decide, h.2.2.2.2⟩

/-- C6 (code bug): with the speed buff active (timer 900), a pressed key
still moves the player by `speed = 6`, not by the boosted
`current_speed = 9` the update computes and then never uses; and the
guard-before-move bound check lets the bounding box leave the playfield
(from `x = 3`, a LEFT press lands at `x = -3 < 0`). -/
theorem C6_speed_buff_unused_and_no_clamp :
    (({ Player.init with x := 100, speed_buff_time := 900 } : Player).update
        true false false false).x = 100 - 6 ∧
    Player.current_speed
        { Player.init with x := 100, speed_buff_time := 900 } = 9 ∧
    (({ Player.init with x := 100, speed_buff_time := 900 } : Player).update
        true false false false).x ≠ 100 - 9 ∧
    (({ Player.init with x := 3 } : Player).update true false false false).x
        = -3 := by
  decide

/-- C7 counterexample: two enemies overlap the player in the same frame
(`k = 2`), yet the contact pass leaves the player at health 4 — one
`take_damage(1)` call — not at the health 3 that two `take_damage(1)` calls
(one per touched enemy, as the claim states) would produce. -/
theorem C7_counterexample_single_damage :
    (([⟨100, 100, 2, 1, 1500⟩, ⟨110, 110, 2, 1, 1500⟩] : List Enemy).filter
        fun e => playerHitsEnemy { Player.init with x := 100, y := 100 } e)
      = [⟨100, 100, 2, 1, 1500⟩, ⟨110, 110, 2, 1, 1500⟩] ∧
    (player_enemy_contact { Player.init with x := 100, y := 100 }
        [⟨100, 100, 2, 1, 1500⟩, ⟨110, 110, 2, 1, 1500⟩]).1._health = 4 ∧
    (player_enemy_contact { Player.init with x := 100, y := 100 }
        [⟨100, 100, 2, 1, 1500⟩, ⟨110, 110, 2, 1, 1500⟩]).1
      ≠ (({ Player.init with x := 100, y := 100 } : Player).take_damage
          1).take_damage 1 := by
  decide

/-- C7 (amended): in a frame where `k ≥ 1` enemies overlap the player, the
contact pass applies exactly one `take_damage(1)` call to the player — not
one per enemy — and every one of the touched enemies is destroyed (removed
from the group), while the untouched ones survive. -/
theorem C7_contact_once_all_enemies_die (p : Player) (enemies : List Enemy)
    (h : ∃ e ∈ enemies, playerHitsEnemy p e = true) :
    (player_enemy_contact p enemies).1 = p.take_damage 1 ∧
    (∀ e ∈ enemies, playerHitsEnemy p e = true →
      e ∉ (player_enemy_contact p enemies).2) ∧
    (∀ e ∈ enemies, playerHitsEnemy p e = false →
      e ∈ (player_enemy_contact p enemies).2) := by
  obtain ⟨e0, he0, hhit⟩ := h
  refine ⟨?_, ?_, ?_⟩
  · have hne : (enemies.filter fun e => playerHitsEnemy p e).isEmpty = false := by
      rw [List.isEmpty_eq_false]
      intro hnil
      have hmem := List.mem_filter.mpr ⟨he0, hhit⟩
      rw [hnil] at hmem
      exact absurd hmem (List.not_mem_nil e0)
    show (if (enemies.filter fun e => playerHitsEnemy p e).isEmpty then p
      else p.take_damage 1) = p.take_damage 1
    rw [hne]
    rfl
  · intro e _ hhit' hmem
    have := (List.mem_filter.mp hmem).2
    simp [hhit'] at this
  · intro e he hnot
    exact List.mem_filter.mpr ⟨he, by simp [hnot]⟩

/-- Witness for C7 (amended): one overlapping enemy costs the player one
point of health and dies. -/
theorem C7_contact_once_all_enemies_die_witness :
    (player_enemy_contact { Player.init with x := 100, y := 100 }
        [⟨100, 100, 2, 1, 1500⟩]).1
      = ({ Player.init with x := 100, y := 100 } : Player).take_damage 1 :=
  (C7_contact_once_all_enemies_die { Player.init with x := 100, y := 100 }
    [⟨100, 100, 2, 1, 1500⟩]
    ⟨⟨100, 100, 2, 1, 1500⟩, List.mem_cons_self _ _, by decide⟩).1

/-- C8 counterexample: a file whose content is the valid decimal integer
"-5" is not rejected (it is not in the missing/unreadable/unparsable case),
yet `_load` returns `-5`, which is neither 0 nor a non-negative integer. -/
theorem C8_counterexample_negative_content :
    pyIntParse "-5" = some (-5) ∧
    HighScoreManager._load (some "-5") = -5 ∧
    HighScoreManager._load (some "-5") < 0 := by
  decide

/-- C8 (amended): `_load` never surfaces an error: a missing or unreadable
file, or content Python's `int` cannot parse, yields 0; content parsing to
the integer `n` (which may be negative) yields `n`. -/
theorem C8_load_total (file : Option String) :
    (file = none → HighScoreManager._load file = 0) ∧
    (∀ s, file = some s → pyIntParse s = none →
      HighScoreManager._load file = 0) ∧
    (∀ s n, file = some s → pyIntParse s = some n →
      HighScoreManager._load file = n) := by
  refine ⟨?_, ?_, ?_⟩
  · rintro rfl
    rfl
  · rintro s rfl hp
    simp [HighScoreManager._load, hp]
  · rintro s n rfl hp
    simp [HighScoreManager._load, hp]

/-- Witness for C8 (amended): a file holding "150" loads as 150. -/
theorem C8_load_total_witness : HighScoreManager._load (some "150") = 150 :=
  (C8_load_total (some "150")).2.2 "150" 150 rfl (by decide)

/-- C9: off-screen cleanup.  After its per-tick movement, a player bullet
whose rect is fully above the screen or past either horizontal bound, and
an enemy bullet, asteroid or power-up whose top has passed the far vertical
bound `HEIGHT`, is killed by that same `update` call (removed from all
groups, so it joins no later collision pass). -/
theorem C9_offscreen_cleanup :
    (∀ b : Bullet,
      ((Bullet.update b).1.y + (Bullet.update b).1.h < 0 ∨
        WIDTH < (Bullet.update b).1.x ∨
        (Bullet.update b).1.x + (Bullet.update b).1.w < 0) →
      (Bullet.update b).2 = false) ∧
    (∀ b : EnemyBullet, HEIGHT < (EnemyBullet.update b).1.y →
      (EnemyBullet.update b).2 = false) ∧
    (∀ a : Asteroid, HEIGHT < (Asteroid.update a).1.y →
      (Asteroid.update a).2 = false) ∧
    (∀ u : PowerUp, HEIGHT < (PowerUp.update u).1.y →
      (PowerUp.update u).2 = false) := by
  refine ⟨fun b h => ?_, fun b h => ?_, fun a h => ?_, fun u h => ?_⟩
  · show (!(decide (b.y - b.speed + b.h < 0) || decide (WIDTH < b.x + b.dx) ||
      decide (b.x + b.dx + b.w < 0))) = false
    have h' : b.y - b.speed + b.h < 0 ∨ WIDTH < b.x + b.dx ∨
        b.x + b.dx + b.w < 0 := h
    rcases h' with h' | h' | h' <;> simp [h']
  · show (!decide (HEIGHT < b.y + b.speed)) = false
    simp [show HEIGHT < b.y + b.speed from h]
  · show (!decide (HEIGHT < a.y + a.speed)) = false
    simp [show HEIGHT < a.y + a.speed from h]
  · show (!decide (HEIGHT < u.y + u.speed)) = false
    simp [show HEIGHT < u.y + u.speed from h]

/-- Witness for C9: a bullet starting at the top edge flies off and dies,
and an asteroid just above the bottom edge falls out and dies. -/
theorem C9_offscreen_cleanup_witness :
    (Bullet.update ⟨0, 0, 5, 12, 15, 0⟩).2 = false ∧
    (Asteroid.update ⟨0, 899, 15, 6⟩).2 = false :=
  ⟨C9_offscreen_cleanup.1 ⟨0, 0, 5, 12, 15, 0⟩ (by decide),
   C9_offscreen_cleanup.2.2.1 ⟨0, 899, 15, 6⟩ (by decide)⟩

/-- C10: in one frame's bullet-versus-enemy pass, a single bullet that
overlaps `k ≥ 1` enemies damages every one of them once — by 2 when the
big-bullet timer is positive, else by 1 — raises the score by exactly
`10 * k` (not by 10), spawns `k` explosions, and the bullet itself is
removed once.  A hit enemy survives in the group exactly when the damage
leaves it positive health, and the group gains no other member. -/
theorem C10_one_bullet_hits_all (p : Player) (b : Bullet)
    (enemies : List Enemy) (score : Int) (ht : 0 ≤ p.big_bullet_time)
    (hk : 1 ≤ (enemies.filter fun e => bulletHitsEnemy b e).length) :
    (bullet_enemy_pass p b enemies score).2.1
      = score + 10 * (enemies.filter fun e => bulletHitsEnemy b e).length ∧
    (bullet_enemy_pass p b enemies score).2.2.1
      = (enemies.filter fun e => bulletHitsEnemy b e).length ∧
    (bullet_enemy_pass p b enemies score).2.2.2 = false ∧
    (∀ e ∈ enemies, bulletHitsEnemy b e = true →
      0 < e.health - (if 0 < p.big_bullet_time then 2 else 1) →
      ({ e with health :=
          e.health - (if 0 < p.big_bullet_time then 2 else 1) } : Enemy)
        ∈ (bullet_enemy_pass p b enemies score).1) ∧
    (∀ e' ∈ (bullet_enemy_pass p b enemies score).1,
      (e' ∈ enemies ∧ bulletHitsEnemy b e' = false) ∨
      ∃ e ∈ enemies, bulletHitsEnemy b e = true ∧
        e' = { e with health :=
          e.health - (if 0 < p.big_bullet_time then 2 else 1) } ∧
        0 < e'.health) := by
  have hdmg : (if p.big_bullet_time ≠ 0 then (2:Int) else 1)
      = (if 0 < p.big_bullet_time then 2 else 1) := by
    rcases lt_or_eq_of_le ht with h | h
    · rw [if_pos (by omega), if_pos h]
    · rw [if_neg (by omega), if_neg (by omega)]
  refine ⟨rfl, rfl, ?_, ?_, ?_⟩
  · show (enemies.filter fun e => bulletHitsEnemy b e).isEmpty = false
    rw [List.isEmpty_eq_false]
    intro hnil
    rw [hnil] at hk
    exact absurd hk (by decide)
  · intro e he hhit hpos
    show _ ∈ enemies.filterMap fun e =>
      if bulletHitsEnemy b e then e.take_damage
        (if p.big_bullet_time ≠ 0 then 2 else 1) else some e
    refine List.mem_filterMap.mpr ⟨e, he, ?_⟩
    rw [hhit, if_pos rfl, hdmg]
    unfold Enemy.take_damage
    rw [if_neg (by
      show ¬({ e with health :=
        e.health - (if 0 < p.big_bullet_time then 2 else 1) } : Enemy).health ≤ 0
      show ¬e.health - (if 0 < p.big_bullet_time then 2 else 1) ≤ 0
      omega)]
  · intro e' he'
    have he'' : e' ∈ enemies.filterMap fun e =>
        if bulletHitsEnemy b e then e.take_damage
          (if p.big_bullet_time ≠ 0 then 2 else 1) else some e := he'
    obtain ⟨e, he, hf⟩ := List.mem_filterMap.mp he''
    by_cases hhit : bulletHitsEnemy b e = true
    · right
      rw [hhit, if_pos rfl, hdmg] at hf
      unfold Enemy.take_damage at hf
      by_cases hdead :
          e.health - (if 0 < p.big_bullet_time then 2 else 1) ≤ 0
      · rw [if_pos hdead] at hf
        exact absurd hf (by simp)
      · rw [if_neg hdead] at hf
        refine ⟨e, he, hhit, ?_, ?_⟩
        · exact (Option.some_injective _ hf).symm
        · rw [← Option.some_injective _ hf]
          show 0 < e.health - (if 0 < p.big_bullet_time then 2 else 1)
          omega
    · left
      rw [if_neg hhit] at hf
      have : e = e' := Option.some_injective _ hf
      subst this
      exact ⟨he, by simpa using hhit⟩

/-- Witness for C10: a small bullet over one 3-health enemy scores 10,
spawns one explosion, dies, and leaves the enemy at health 2. -/
theorem C10_one_bullet_hits_all_witness :
    (bullet_enemy_pass Player.init ⟨100, 100, 5, 12, 15, 0⟩
        [⟨95, 95, 2, 3, 1500⟩] 0).2.2.2 = false ∧
    (bullet_enemy_pass Player.init ⟨100, 100, 5, 12, 15, 0⟩
        [⟨95, 95, 2, 3, 1500⟩] 0).2.1 = 0 + 10 * 1 := by
  have h := C10_one_bullet_hits_all Player.init ⟨100, 100, 5, 12, 15, 0⟩
    [⟨95, 95, 2, 3, 1500⟩] 0 (by decide) (by decide)
  exact ⟨h.2.2.1, by rw [h.1]; decide⟩

end Alio
